import Mathlib

/-!
Verification development for `pyfes/expression.py` (OGC Filter Encoding
Expression objects: ValueReference, Literal, Function, and the
ExpressionParser factory).

Shallow embedding conventions:
  - An lxml element node is embedded as `XmlNode` (namespace URI, local
    name, text content, attribute map, children).  `text` is an
    `Option String` because lxml reports absent text as `None`.
  - Python values that can sit in `Literal._value` are embedded as
    `PyVal` (a string, a parsed datetime object, or `None`).
  - Raisable Python exceptions are embedded as `Except PyError`:
    `ValidationError` (from the validators module), `ValueError`
    (from `datetime.strptime` on a non-matching string) and `TypeError`
    (from `strptime` on a non-string, or from assigning a non-string to
    an lxml element text).
  - The `validators` module is not part of the sources; per the spec
    (section 4.2) a validator is a pluggable predicate that either
    succeeds silently or raises ValidationError.  The two validators are
    therefore abstracted as Boolean-valued parameters
    (`vProp` for `validators.gml_property_name_validator`,
    `vName` for `validators.gml_validator`); `true` means the candidate
    passes, `false` means the validator raises ValidationError.
  - The class-level attribute `Function.arguments = []` is a single list
    object shared by every `Function` instance (instances only ever call
    `self.arguments.append`, which mutates the class attribute in
    place).  It is embedded as an explicit state value of type
    `FunctionClassState` threaded through the operations that touch it.
-/

namespace Pyfes

/-- Modelled from the spec (section 4.1): the `namespaces` module (not among
the sources) is a fixed read-only mapping from prefixes to namespace URIs.
Only the entry for the prefix `fes` is used by the Expression classes; its
exact URI value is immaterial, what matters is that serialization and
deserialization consult the same table. -/
def fesNamespaceURI : String := "http://www.opengis.net/fes/2.0"

/-- An lxml element node: namespace URI (None when the tag is unqualified),
local name, text content (None when absent), attribute map and children. -/
inductive XmlNode where
  | mk (ns : Option String) (localname : String) (text : Option String)
      (attrib : List (String × String)) (children : List XmlNode)

def XmlNode.ns : XmlNode → Option String
  | XmlNode.mk n _ _ _ _ => n

def XmlNode.localname : XmlNode → String
  | XmlNode.mk _ l _ _ _ => l

def XmlNode.text : XmlNode → Option String
  | XmlNode.mk _ _ t _ _ => t

def XmlNode.attrib : XmlNode → List (String × String)
  | XmlNode.mk _ _ _ a _ => a

def XmlNode.children : XmlNode → List XmlNode
  | XmlNode.mk _ _ _ _ c => c

/-- A Python `datetime.datetime` value as far as this module builds them. -/
structure PyDateTime where
  year : Nat
  month : Nat
  day : Nat
  hour : Nat
  minute : Nat
  second : Nat
deriving DecidableEq

/-- A Python value that can be stored in `Literal._value`: a string, a
parsed `datetime.datetime` object, or `None`. -/
inductive PyVal where
  | str (s : String)
  | dt (d : PyDateTime)
  | pyNone
deriving DecidableEq

/-- The Python exceptions this module can raise. -/
inductive PyError where
  | validationError
  | valueError
  | typeError
deriving DecidableEq

/-! ### datetime.datetime.strptime with the fixed format "%Y-%m-%dT%H:%M:%S"

CPython implements `strptime` by compiling the format to a regex with the
IGNORECASE flag (so the literal `T` of the format also matches a lowercase
`t`, and nothing else, since the case fold of `t` holds exactly those two
code points) and with the default Unicode matching (so `\d` matches every
code point of Unicode category Nd, while the spelled-out classes such as
`[0-2]` remain code-point ranges covering ASCII digits only).  The field
patterns are: `\d\d\d\d` for `%Y`; `1[0-2]|0[1-9]|[1-9]` for `%m`;
`3[0-1]|[1-2]\d|0[1-9]|[1-9]| [1-9]` for `%d` (the last alternative is a
literal space then a nonzero ASCII digit); `2[0-3]|[0-1]\d|\d` for `%H`;
`[0-5]\d|\d` for `%M`; `6[0-1]|[0-5]\d|\d` for `%S`.  The regex is matched
from the start of the string, alternatives tried left to right with
backtracking; ValueError is raised when the match fails or leaves
unconverted data, and the matched groups are converted with `int(...)`
(which reads any Unicode decimal digits and ignores leading blanks) before
constructing `datetime(...)`, which raises ValueError when the field
values do not form a real date (year 0, day beyond the length of the
month, second 60 or 61). -/

/-- The first code point of every run of ten consecutive decimal digits
that makes up Unicode category Nd (the digit with value `i` of a run
starting at `b` is the code point `b + i`); table of Unicode 14.0, the
database of current CPython builds. -/
def ndRangeStarts : List Nat :=
  [0x30, 0x660, 0x6F0, 0x7C0, 0x966, 0x9E6, 0xA66, 0xAE6, 0xB66, 0xBE6,
   0xC66, 0xCE6, 0xD66, 0xDE6, 0xE50, 0xED0, 0xF20, 0x1040, 0x1090, 0x17E0,
   0x1810, 0x1946, 0x19D0, 0x1A80, 0x1A90, 0x1B50, 0x1BB0, 0x1C40, 0x1C50,
   0xA620, 0xA8D0, 0xA900, 0xA9D0, 0xA9F0, 0xAA50, 0xABF0, 0xFF10, 0x104A0,
   0x10D30, 0x11066, 0x110F0, 0x11136, 0x111D0, 0x112F0, 0x11450, 0x114D0,
   0x11650, 0x116C0, 0x11730, 0x118E0, 0x11950, 0x11C50, 0x11D50, 0x11DA0,
   0x16A60, 0x16AC0, 0x16B50, 0x1D7CE, 0x1D7D8, 0x1D7E2, 0x1D7EC, 0x1D7F6,
   0x1E140, 0x1E2F0, 0x1E950, 0x1FBF0]

/-- The value of a character under the regex class `\d` (any Unicode
decimal digit), as `int(...)` then reads it. -/
def unicodeDigitVal (c : Char) : Option Nat :=
  (ndRangeStarts.find? (fun b => b ≤ c.toNat && c.toNat ≤ b + 9)).map
    (fun b => c.toNat - b)

/-- The value of a character under a spelled-out class such as `[0-5]`:
a code-point range, hence ASCII digits only. -/
def asciiDigitVal (lo hi : Char) (c : Char) : Option Nat :=
  if lo ≤ c ∧ c ≤ hi then some (c.toNat - 48) else none

/-- One alternative of a field pattern: consumes a prefix of the input and
yields the numeric value of the matched group together with the rest. -/
abbrev FieldAlt := List Char → Option (Nat × List Char)

/-- Alternative of the shape `c0[lo-hi]` (a literal ASCII digit then an
ASCII digit class), e.g. `1[0-2]`; the group value is `tens` plus the
second digit. -/
def altLit2 (c0 : Char) (tens : Nat) (lo hi : Char) : FieldAlt :=
  fun cs =>
    match cs with
    | c1 :: c2 :: rest =>
      if c1 = c0 then (asciiDigitVal lo hi c2).map (fun d => (tens + d, rest))
      else none
    | _ => none

/-- Alternative of the shape `[lo-hi]\d` (an ASCII digit class then any
Unicode digit), e.g. `[0-5]\d`. -/
def altAsciiUni2 (lo hi : Char) : FieldAlt :=
  fun cs =>
    match cs with
    | c1 :: c2 :: rest =>
      match asciiDigitVal lo hi c1, unicodeDigitVal c2 with
      | some d1, some d2 => some (d1 * 10 + d2, rest)
      | _, _ => none
    | _ => none

/-- Alternative of the shape `[lo-hi]` (one ASCII digit). -/
def altAscii1 (lo hi : Char) : FieldAlt :=
  fun cs =>
    match cs with
    | c :: rest => (asciiDigitVal lo hi c).map (fun d => (d, rest))
    | [] => none

/-- Alternative of the shape `\d` (one Unicode digit). -/
def altUni1 : FieldAlt :=
  fun cs =>
    match cs with
    | c :: rest => (unicodeDigitVal c).map (fun d => (d, rest))
    | [] => none

/-- Alternative of the shape ` [lo-hi]` (a literal space then one ASCII
digit, the trailing alternative of `%d`); `int` ignores the leading blank
of the matched group. -/
def altSpaceAscii1 (lo hi : Char) : FieldAlt :=
  fun cs =>
    match cs with
    | c1 :: c2 :: rest =>
      if c1 = ' ' then (asciiDigitVal lo hi c2).map (fun d => (d, rest))
      else none
    | _ => none

/-- Alternative of the shape `\d\d\d\d` (the `%Y` field). -/
def altYear4 : FieldAlt :=
  fun cs =>
    match cs with
    | a :: b :: c :: d :: rest =>
      match unicodeDigitVal a, unicodeDigitVal b, unicodeDigitVal c,
          unicodeDigitVal d with
      | some w, some x, some y, some z =>
        some (w * 1000 + x * 100 + y * 10 + z, rest)
      | _, _, _, _ => none
    | _ => none

/-- Try the alternatives of one field in regex priority order (left to
right), backtracking into the continuation `k` exactly as the regex engine
does. -/
def tryAlts (alts : List FieldAlt) (cs : List Char)
    (k : Nat → List Char → Option PyDateTime) : Option PyDateTime :=
  match alts with
  | [] => none
  | a :: rest =>
    match a cs with
    | some (v, cs1) =>
      match k v cs1 with
      | some r => some r
      | none => tryAlts rest cs k
    | none => tryAlts rest cs k

/-- Match one literal character of the format string; `ok` holds the set
of code points the literal matches under IGNORECASE. -/
def matchLit (ok : Char → Bool) (cs : List Char)
    (k : List Char → Option PyDateTime) : Option PyDateTime :=
  match cs with
  | c :: rest => if ok c then k rest else none
  | [] => none

def isLeapYear (y : Nat) : Bool :=
  y % 4 = 0 && (y % 100 ≠ 0 || y % 400 = 0)

def daysInMonth (y m : Nat) : Nat :=
  if m = 2 then (if isLeapYear y then 29 else 28)
  else if m = 4 || m = 6 || m = 9 || m = 11 then 30
  else 31

/-- The validation performed by the `datetime.datetime` constructor on the
fields delivered by the regex (the regex already bounds month by 12, hour
by 23, minute by 59; the constructor additionally rejects year 0, a day
beyond the length of the month, and the leap seconds 60 and 61 that the
`%S` regex admits). -/
def datetimeOk (y mo d h mi s : Nat) : Bool :=
  1 ≤ y && 1 ≤ d && d ≤ daysInMonth y mo && s ≤ 59 && h ≤ 23 && mi ≤ 59 &&
    1 ≤ mo && mo ≤ 12

/-- `datetime.datetime.strptime(s, "%Y-%m-%dT%H:%M:%S")`, returning `none`
where Python raises ValueError.  Each field lists its regex alternatives
in priority order with their exact character classes, the literal `T`
matches `T` or `t` (IGNORECASE), and the final check demands that no
unconverted data remains and that the datetime constructor accepts the
fields. -/
def strptimeFes (s : String) : Option PyDateTime :=
  tryAlts [altYear4] s.data (fun y r1 =>
  matchLit (fun c => c = '-') r1 (fun r2 =>
  tryAlts [altLit2 '1' 10 '0' '2', altLit2 '0' 0 '1' '9', altAscii1 '1' '9']
      r2 (fun mo r3 =>
  matchLit (fun c => c = '-') r3 (fun r4 =>
  tryAlts [altLit2 '3' 30 '0' '1', altAsciiUni2 '1' '2', altLit2 '0' 0 '1' '9',
      altAscii1 '1' '9', altSpaceAscii1 '1' '9'] r4 (fun d r5 =>
  matchLit (fun c => c = 'T' || c = 't') r5 (fun r6 =>
  tryAlts [altLit2 '2' 20 '0' '3', altAsciiUni2 '0' '1', altUni1] r6
      (fun h r7 =>
  matchLit (fun c => c = ':') r7 (fun r8 =>
  tryAlts [altAsciiUni2 '0' '5', altUni1] r8 (fun mi r9 =>
  matchLit (fun c => c = ':') r9 (fun r10 =>
  tryAlts [altLit2 '6' 60 '0' '1', altAsciiUni2 '0' '5', altUni1] r10
      (fun sec r11 =>
  if r11 = [] && datetimeOk y mo d h mi sec then
    some (PyDateTime.mk y mo d h mi sec)
  else none)))))))))))

/-! ### ValueReference -/

/-- `class ValueReference(Expression)`: its single piece of instance state.
The class-level default is `_value = ""`.  The value is kept as
`Option String` because the text content of an XML node (from which
`deserialize` constructs instances) can be absent (`None`). -/
structure ValueReference where
  _value : Option String := some ""
deriving DecidableEq

def ValueReference.XML_ENTITY_NAME : String := "ValueReference"

/-- The `value` property getter: returns `self._value`. -/
def ValueReference.valueGet (self : ValueReference) : Option String :=
  self._value

/-- The `value` property setter: runs every validator in
`ValueReference.validators` (the list holds exactly
`validators.gml_property_name_validator`, abstracted as `vProp`) on the
new value and stores it only when they all pass; a ValidationError raised
by a validator propagates and leaves `_value` untouched.  The result pairs
the outcome of the assignment with the post-state of the instance. -/
def ValueReference.valueSet (vProp : Option String → Bool)
    (self : ValueReference) (newValue : Option String) :
    Except PyError Unit × ValueReference :=
  if vProp newValue then (Except.ok (), { self with _value := newValue })
  else (Except.error PyError.validationError, self)

/-- `ValueReference.__init__(self, value)`: assigns through the `value`
setter on a fresh instance (which starts from the class-level default
`_value = ""`); a ValidationError from the setter propagates, in which
case no instance is produced. -/
def ValueReference.init (vProp : Option String → Bool)
    (value : Option String) : Except PyError ValueReference :=
  match ValueReference.valueSet vProp {} value with
  | (Except.ok _, inst) => Except.ok inst
  | (Except.error e, _) => Except.error e

/-- `ValueReference._serialize`: builds an element whose qualified tag is
the fes namespace URI with local name `XML_ENTITY_NAME` and whose text is
`self.value` (the getter). -/
def ValueReference._serialize (self : ValueReference) : XmlNode :=
  XmlNode.mk (some fesNamespaceURI) ValueReference.XML_ENTITY_NAME
    self.valueGet [] []

/-- `ValueReference.deserialize`: when the QName of the node matches the
fes namespace and the local name `"ValueReference"`, constructs an
instance from the node text (a ValidationError raised inside the
constructor propagates to the caller); otherwise logs an error-level
diagnostic and returns `None`. -/
def ValueReference.deserialize (vProp : Option String → Bool)
    (node : XmlNode) : Except PyError (Option ValueReference) :=
  if node.ns = some fesNamespaceURI ∧
      node.localname = ValueReference.XML_ENTITY_NAME then
    match ValueReference.init vProp node.text with
    | Except.ok inst => Except.ok (some inst)
    | Except.error e => Except.error e
  else Except.ok none

/-! ### Literal -/

/-- `class Literal(Expression)`: instance state.  Class-level defaults are
`_value = None` and `type_ = None`. -/
structure Literal where
  _value : PyVal := PyVal.pyNone
  type_ : Option String := none
deriving DecidableEq

def Literal.XML_ENTITY_NAME : String := "Literal"

/-- The `value` property getter: when `self.type_ == "xs:date"` it returns
`datetime.datetime.strptime(self._value, "%Y-%m-%dT%H:%M:%S")` (ValueError
when the stored string does not parse, TypeError when the stored value is
not a string); otherwise it returns the stored value unchanged. -/
def Literal.valueGet (self : Literal) : Except PyError PyVal :=
  if self.type_ = some "xs:date" then
    match self._value with
    | PyVal.str s =>
      match strptimeFes s with
      | some d => Except.ok (PyVal.dt d)
      | none => Except.error PyError.valueError
    | _ => Except.error PyError.typeError
  else Except.ok self._value

/-- The `value` property setter: stores the new value verbatim, with no
validation and no type interpretation. -/
def Literal.valueSet (self : Literal) (newValue : PyVal) : Literal :=
  { self with _value := newValue }

/-- `Literal.__init__(self, value, type_=None)`: stores the value through
the setter, then sets `type_`.  Never raises. -/
def Literal.init (value : PyVal) (type_ : Option String) : Literal :=
  { Literal.valueSet {} value with type_ := type_ }

/-- Assignment to the `text` attribute of an lxml element: accepts a
string (or `None`, clearing the text); any other object, such as the
`datetime.datetime` the Literal getter produces, raises TypeError. -/
def lxmlTextAssign : PyVal → Except PyError (Option String)
  | PyVal.str s => Except.ok (some s)
  | PyVal.pyNone => Except.ok none
  | PyVal.dt _ => Except.error PyError.typeError

/-- `Literal._serialize`: builds the `fes:Literal` element, sets the
`type` attribute when `self.type_` is not `None`, then assigns
`element.text = self.value` -- note: the property getter, so a Literal
typed `"xs:date"` delivers a parsed datetime object to lxml (TypeError),
not the raw stored string, and an unparsable stored string raises
ValueError out of the getter. -/
def Literal._serialize (self : Literal) : Except PyError XmlNode :=
  let attrs : List (String × String) :=
    match self.type_ with
    | some t => [("type", t)]
    | none => []
  match Literal.valueGet self with
  | Except.error e => Except.error e
  | Except.ok v =>
    match lxmlTextAssign v with
    | Except.error e => Except.error e
    | Except.ok txt =>
      Except.ok (XmlNode.mk (some fesNamespaceURI) Literal.XML_ENTITY_NAME
        txt attrs [])

/-- The Python value `Literal.deserialize` passes to the constructor for
the text content of the node: the string, or `None` when absent. -/
def pyValOfText : Option String → PyVal
  | some s => PyVal.str s
  | none => PyVal.pyNone

/-- `Literal.deserialize`: when the QName of the node matches the fes
namespace and the local name `"Literal"`, constructs an instance from the
node text and the optional `type` attribute (never raises); otherwise
logs a debug-level diagnostic and returns `None`. -/
def Literal.deserialize (node : XmlNode) : Option Literal :=
  if node.ns = some fesNamespaceURI ∧
      node.localname = Literal.XML_ENTITY_NAME then
    some (Literal.init (pyValOfText node.text) (node.attrib.lookup "type"))
  else none

/-! ### Function and the Expression variant set -/

/-- `class Function(Expression)`: its per-instance scalar state.  The
class-level default is `_name = ""`.  The `arguments` attribute is NOT
part of the instance: it is the single class-level list (see
`FunctionClassState` below). -/
structure Function where
  _name : Option String := some ""
deriving DecidableEq

def Function.XML_ENTITY_NAME : String := "Function"

/-- An Expression instance: exactly one of the three variants defined in
the module.  A `Function` value carries only its name because the source
keeps the argument list in the shared class attribute. -/
inductive Expression where
  | valueReference (v : ValueReference)
  | literal (l : Literal)
  | function (f : Function)
deriving DecidableEq

/-- The state of the class-level attribute `Function.arguments = []`: a
single mutable list object shared by every instance (the constructor only
ever calls `self.arguments.append(arg)`, which mutates this shared list in
place and never creates a per-instance list). -/
abbrev FunctionClassState := List Expression

/-- The initial value of the class attribute `Function.arguments`. -/
def Function.argumentsInitial : FunctionClassState := []

/-- Reading `self.arguments` on a Function instance: the instance never
binds an `arguments` attribute of its own, so the lookup falls through to
the class attribute, i.e. every instance observes the same shared list. -/
def Function.argumentsOf (_self : Function) (σ : FunctionClassState) :
    List Expression :=
  σ

/-- The `name` property setter: runs `validators.gml_validator`
(abstracted as `vName`) on the new name, which raises ValidationError when
invalid, then stores it.  The result pairs the outcome with the
post-state. -/
def Function.nameSet (vName : Option String → Bool) (self : Function)
    (newName : Option String) : Except PyError Unit × Function :=
  if vName newName then (Except.ok (), { self with _name := newName })
  else (Except.error PyError.validationError, self)

/-- A Python object passed as a positional argument to
`Function.__init__`: either an instance of the Expression family or some
non-Expression object (carried with a rendering of itself, e.g. the string
`"not-an-expression"`). -/
inductive PyObj where
  | expr (e : Expression)
  | nonExpr (s : String)

/-- `Function.__init__(self, name, *arguments)`: assigns `name` through
the validating setter (a ValidationError propagates and no instance is
produced), then iterates over the arguments, appending to the shared
class-level `arguments` list exactly those that are instances of
`Expression`.  For a non-Expression argument the source reaches
`logger.warning(...)`; the sources are cut inside that call (the file ends
mid-statement at line 155), so the branch is modelled from the spec
(sections 3 and 4.6): the argument is logged and dropped silently while
construction succeeds. -/
def Function.init (vName : Option String → Bool) (name : Option String)
    (args : List PyObj) (σ : FunctionClassState) :
    Except PyError (Function × FunctionClassState) :=
  match Function.nameSet vName {} name with
  | (Except.error e, _) => Except.error e
  | (Except.ok _, self) =>
    Except.ok (self, σ ++ args.filterMap (fun a =>
      match a with
      | PyObj.expr e => some e
      | PyObj.nonExpr _ => none))

mutual

/-- Modelled from the spec: `Function.deserialize` and the XML wire shape
of Function are missing from the sources (the file is cut at line 155,
before any Function classmethod).  Per spec sections 4.3, 4.6 and 6 it
follows the same QName matching pattern as the other variants (fes
namespace, local name `"Function"`, returning `None` on a mismatch), takes
the name from a `name` attribute, and obtains the arguments by delegating
each child node to the factory recursively, the constructed instance
coming from `Function.__init__` (so name validation errors propagate and
parsed children are appended to the shared class-level list). -/
def Function.deserialize (vProp vName : Option String → Bool)
    (node : XmlNode) (σ : FunctionClassState) :
    Except PyError (Option Function × FunctionClassState) :=
  match node with
  | XmlNode.mk ns ln _txt attrs children =>
    if ns = some fesNamespaceURI ∧ ln = Function.XML_ENTITY_NAME then
      match parseArgumentNodes vProp vName children σ with
      | Except.error e => Except.error e
      | Except.ok (args, σ1) =>
        match Function.init vName (attrs.lookup "name") args σ1 with
        | Except.error e => Except.error e
        | Except.ok (f, σ2) => Except.ok (some f, σ2)
    else Except.ok (none, σ)
termination_by (sizeOf node, 1)

/-- Modelled from the spec (with `Function.deserialize` above): parse each
child node through the factory, in order, threading the shared class state;
a child no variant claims comes back as the non-Expression object `None`,
which the Function constructor then drops. -/
def parseArgumentNodes (vProp vName : Option String → Bool)
    (nodes : List XmlNode) (σ : FunctionClassState) :
    Except PyError (List PyObj × FunctionClassState) :=
  match nodes with
  | [] => Except.ok ([], σ)
  | n :: rest =>
    match ExpressionParser.parse vProp vName n σ with
    | Except.error e => Except.error e
    | Except.ok (oe, σ1) =>
      match parseArgumentNodes vProp vName rest σ1 with
      | Except.error e => Except.error e
      | Except.ok (objs, σ2) =>
        Except.ok ((match oe with
          | some e => PyObj.expr e
          | none => PyObj.nonExpr "None") :: objs, σ2)
termination_by (sizeOf nodes, 0)

/-- `ExpressionParser.parse`: walks the class list
`[ValueReference, Literal, Function]` in order, calling each
`deserialize(expression)` until one returns a non-`None` instance, and
returns that instance (or `None` when every variant declined).  An
exception raised by a deserializer (e.g. a ValidationError out of the
ValueReference constructor) propagates.  The shared class-level
`Function.arguments` state is threaded through because the modelled
`Function.deserialize` can append to it. -/
def ExpressionParser.parse (vProp vName : Option String → Bool)
    (node : XmlNode) (σ : FunctionClassState) :
    Except PyError (Option Expression × FunctionClassState) :=
  match ValueReference.deserialize vProp node with
  | Except.error e => Except.error e
  | Except.ok (some v) => Except.ok (some (Expression.valueReference v), σ)
  | Except.ok none =>
    match Literal.deserialize node with
    | some l => Except.ok (some (Expression.literal l), σ)
    | none =>
      match Function.deserialize vProp vName node σ with
      | Except.error e => Except.error e
      | Except.ok (of, σ1) => Except.ok (of.map Expression.function, σ1)
termination_by (sizeOf node, 2)

end

/-! ### Sample nodes used by the closed witness statements -/

/-- A node whose local name matches no Expression variant. -/
def bogusNode : XmlNode :=
  XmlNode.mk (some fesNamespaceURI) "Bogus" none [] []

/-- A well-formed `fes:Literal` node. -/
def sampleLiteralNode : XmlNode :=
  XmlNode.mk (some fesNamespaceURI) "Literal" (some "5") [] []

/-- A well-formed `fes:ValueReference` node. -/
def sampleValueReferenceNode : XmlNode :=
  XmlNode.mk (some fesNamespaceURI) "ValueReference" (some "prop1") [] []

/-! ### Claim theorems -/

/-- C1: for every string `s` accepted by the GML property-name validator,
constructing `ValueReference(s)` succeeds, and serializing it then
re-parsing the resulting node through `ExpressionParser.parse` yields a
ValueReference instance whose value equals `s`.  (The public `serialize`
wraps the node built by `_serialize` into text via the external XML
library, and `parse` consumes a node, so the round trip is stated on the
node form, the text leg being the XML library treated as a given
capability per spec section 1.) -/
theorem valueReference_roundTrip (vProp vName : Option String → Bool)
    (s : String) (hs : vProp (some s) = true) (σ : FunctionClassState) :
    ∃ v : ValueReference,
      ValueReference.init vProp (some s) = Except.ok v ∧
      ExpressionParser.parse vProp vName (ValueReference._serialize v) σ =
        Except.ok (some (Expression.valueReference v), σ) ∧
      v.valueGet = some s := by
  refine ⟨⟨some s⟩, ?_, ?_, rfl⟩
  · simp [ValueReference.init, ValueReference.valueSet, hs]
  · simp [ExpressionParser.parse, ValueReference.deserialize,
      ValueReference._serialize, XmlNode.ns, XmlNode.localname, XmlNode.text,
      ValueReference.valueGet, ValueReference.init, ValueReference.valueSet, hs]

/-- C1 witness at `s = "prop1"` with a validator accepting everything. -/
theorem valueReference_roundTrip_witness :
    ((fun _ => true) (some "prop1") : Bool) = true ∧
    ∃ v : ValueReference,
      ValueReference.init (fun _ => true) (some "prop1") = Except.ok v ∧
      ExpressionParser.parse (fun _ => true) (fun _ => true)
          (ValueReference._serialize v) [] =
        Except.ok (some (Expression.valueReference v), []) ∧
      v.valueGet = some "prop1" :=
  ⟨rfl, valueReference_roundTrip (fun _ => true) (fun _ => true) "prop1" rfl []⟩

/-- C2: for every node whose local name is none of `ValueReference`,
`Literal`, `Function`, `ExpressionParser.parse` returns `None` and raises
nothing: every deserializer declines and the loop falls through. -/
theorem parse_unknown_localname_absent (vProp vName : Option String → Bool)
    (node : XmlNode) (σ : FunctionClassState)
    (h1 : node.localname ≠ ValueReference.XML_ENTITY_NAME)
    (h2 : node.localname ≠ Literal.XML_ENTITY_NAME)
    (h3 : node.localname ≠ Function.XML_ENTITY_NAME) :
    ExpressionParser.parse vProp vName node σ = Except.ok (none, σ) := by
  cases node with
  | mk ns ln txt attrs children =>
    simp only [XmlNode.localname] at h1 h2 h3
    simp [ExpressionParser.parse, ValueReference.deserialize,
      Literal.deserialize, Function.deserialize, XmlNode.ns, XmlNode.localname,
      h1, h2, h3]

/-- C2 witness at a node with local name `"Bogus"` in the fes namespace. -/
theorem parse_unknown_localname_absent_witness :
    bogusNode.localname ≠ ValueReference.XML_ENTITY_NAME ∧
    bogusNode.localname ≠ Literal.XML_ENTITY_NAME ∧
    bogusNode.localname ≠ Function.XML_ENTITY_NAME ∧
    ExpressionParser.parse (fun _ => true) (fun _ => true) bogusNode [] =
      Except.ok (none, []) :=
  ⟨by decide, by decide, by decide,
    parse_unknown_localname_absent (fun _ => true) (fun _ => true) bogusNode []
      (by decide) (by decide) (by decide)⟩

/-- C9: `ValueReference.deserialize` on a node whose namespace and local
name both match `fes:ValueReference` but whose text the GML property-name
validator rejects does not return `None`: the ValidationError raised
inside the constructor propagates to the caller, and hence out of
`ExpressionParser.parse`. -/
theorem valueReference_deserialize_error_propagates
    (vProp vName : Option String → Bool) (node : XmlNode)
    (σ : FunctionClassState)
    (hns : node.ns = some fesNamespaceURI)
    (hln : node.localname = ValueReference.XML_ENTITY_NAME)
    (hbad : vProp node.text = false) :
    ValueReference.deserialize vProp node =
      Except.error PyError.validationError ∧
    ExpressionParser.parse vProp vName node σ =
      Except.error PyError.validationError := by
  have h1 : ValueReference.deserialize vProp node =
      Except.error PyError.validationError := by
    simp [ValueReference.deserialize, hns, hln, ValueReference.init,
      ValueReference.valueSet, hbad]
  exact ⟨h1, by simp [ExpressionParser.parse, h1]⟩

/-- C9 witness: a `fes:ValueReference` node with a validator rejecting
everything. -/
theorem valueReference_deserialize_error_propagates_witness :
    sampleValueReferenceNode.ns = some fesNamespaceURI ∧
    sampleValueReferenceNode.localname = ValueReference.XML_ENTITY_NAME ∧
    ((fun _ => false) sampleValueReferenceNode.text : Bool) = false ∧
    (ValueReference.deserialize (fun _ => false) sampleValueReferenceNode =
      Except.error PyError.validationError ∧
    ExpressionParser.parse (fun _ => false) (fun _ => true)
        sampleValueReferenceNode [] =
      Except.error PyError.validationError) :=
  ⟨rfl, rfl, rfl,
    valueReference_deserialize_error_propagates (fun _ => false) (fun _ => true)
      sampleValueReferenceNode [] rfl rfl rfl⟩

/-- C7: for every string the GML property-name validator rejects,
constructing a ValueReference from it fails with ValidationError and no
instance is produced, and assigning it through the `value` setter of an
existing instance fails with ValidationError leaving the stored `_value`
unchanged. -/
theorem valueReference_invalid_rejected (vProp : Option String → Bool)
    (s : String) (hbad : vProp (some s) = false) :
    ValueReference.init vProp (some s) = Except.error PyError.validationError ∧
    ∀ inst : ValueReference,
      ValueReference.valueSet vProp inst (some s) =
        (Except.error PyError.validationError, inst) := by
  constructor
  · simp [ValueReference.init, ValueReference.valueSet, hbad]
  · intro inst
    simp [ValueReference.valueSet, hbad]

/-- C7 witness at `s = "bad name"` with a validator rejecting
everything. -/
theorem valueReference_invalid_rejected_witness :
    ((fun _ => false) (some "bad name") : Bool) = false ∧
    (ValueReference.init (fun _ => false) (some "bad name") =
      Except.error PyError.validationError ∧
    ∀ inst : ValueReference,
      ValueReference.valueSet (fun _ => false) inst (some "bad name") =
        (Except.error PyError.validationError, inst)) :=
  ⟨rfl, valueReference_invalid_rejected (fun _ => false) "bad name" rfl⟩

/-- C6: reading `value` on a Literal whose `type_` is `"xs:date"` and
whose stored raw string is `"2020-01-15T00:00:00"` returns the parsed
datetime January 15 2020, 00:00:00 (fixed format `%Y-%m-%dT%H:%M:%S`);
for every Literal whose `type_` is `None` or any value other than
`"xs:date"`, reading `value` returns the stored value unchanged. -/
theorem literal_valueGet_typed (l : Literal)
    (ht : l.type_ ≠ some "xs:date") :
    Literal.valueGet l = Except.ok l._value ∧
    Literal.valueGet
        (Literal.init (PyVal.str "2020-01-15T00:00:00") (some "xs:date")) =
      Except.ok (PyVal.dt (PyDateTime.mk 2020 1 15 0 0 0)) :=
  ⟨by simp [Literal.valueGet, ht], by rfl⟩

/-- C6 witness at a Literal with `type_ = None`. -/
theorem literal_valueGet_typed_witness :
    (Literal.init (PyVal.str "hello") none).type_ ≠ some "xs:date" ∧
    (Literal.valueGet (Literal.init (PyVal.str "hello") none) =
      Except.ok (Literal.init (PyVal.str "hello") none)._value ∧
    Literal.valueGet
        (Literal.init (PyVal.str "2020-01-15T00:00:00") (some "xs:date")) =
      Except.ok (PyVal.dt (PyDateTime.mk 2020 1 15 0 0 0))) :=
  ⟨by decide, literal_valueGet_typed (Literal.init (PyVal.str "hello") none)
    (by decide)⟩

/-- C10: the Literal `value` getter is partial when `type_` is
`"xs:date"`: a stored string that `strptime` does not accept for the
fixed format raises ValueError, a non-string stored value (a datetime
object or `None`) raises TypeError, and the getter returns normally
exactly when the stored string parses, in which case the parsed datetime
comes back. -/
theorem literal_valueGet_date_raises (l : Literal)
    (ht : l.type_ = some "xs:date") :
    (∀ s, l._value = PyVal.str s → strptimeFes s = none →
      Literal.valueGet l = Except.error PyError.valueError) ∧
    (∀ d, l._value = PyVal.dt d →
      Literal.valueGet l = Except.error PyError.typeError) ∧
    (l._value = PyVal.pyNone →
      Literal.valueGet l = Except.error PyError.typeError) ∧
    (∀ s d, l._value = PyVal.str s → strptimeFes s = some d →
      Literal.valueGet l = Except.ok (PyVal.dt d)) := by
  refine ⟨?_, ?_, ?_, ?_⟩
  · intro s hv hp
    simp [Literal.valueGet, ht, hv, hp]
  · intro d hv
    simp [Literal.valueGet, ht, hv]
  · intro hv
    simp [Literal.valueGet, ht, hv]
  · intro s d hv hp
    simp [Literal.valueGet, ht, hv, hp]

/-- C10 witness at a Literal storing the unparsable string `"not a date"`
with `type_ = "xs:date"`. -/
theorem literal_valueGet_date_raises_witness :
    (Literal.init (PyVal.str "not a date") (some "xs:date")).type_ =
      some "xs:date" ∧
    (Literal.init (PyVal.str "not a date") (some "xs:date"))._value =
      PyVal.str "not a date" ∧
    strptimeFes "not a date" = none ∧
    Literal.valueGet (Literal.init (PyVal.str "not a date") (some "xs:date")) =
      Except.error PyError.valueError :=
  ⟨rfl, rfl, by decide,
    (literal_valueGet_date_raises
        (Literal.init (PyVal.str "not a date") (some "xs:date")) rfl).1
      "not a date" rfl (by decide)⟩

/-- C3: constructing
`Function("myFunc", ValueReference("prop1"), Literal("5"))` (starting from
the pristine class-level argument list) yields an instance whose argument
sequence holds exactly those two expressions in that order, and
constructing `Function("myFunc", "not-an-expression")` succeeds, the
non-Expression argument being dropped, yielding an instance with zero
arguments. -/
theorem function_init_filters_arguments (vProp vName : Option String → Bool)
    (hname : vName (some "myFunc") = true)
    (hprop : vProp (some "prop1") = true) :
    ∃ (vr : ValueReference) (f g : Function),
      ValueReference.init vProp (some "prop1") = Except.ok vr ∧
      Function.init vName (some "myFunc")
          [PyObj.expr (Expression.valueReference vr),
            PyObj.expr (Expression.literal (Literal.init (PyVal.str "5") none))]
          Function.argumentsInitial =
        Except.ok (f,
          [Expression.valueReference vr,
            Expression.literal (Literal.init (PyVal.str "5") none)]) ∧
      Function.argumentsOf f
          [Expression.valueReference vr,
            Expression.literal (Literal.init (PyVal.str "5") none)] =
        [Expression.valueReference vr,
          Expression.literal (Literal.init (PyVal.str "5") none)] ∧
      (Function.argumentsOf f
          [Expression.valueReference vr,
            Expression.literal (Literal.init (PyVal.str "5") none)]).length = 2 ∧
      Function.init vName (some "myFunc") [PyObj.nonExpr "not-an-expression"]
          Function.argumentsInitial =
        Except.ok (g, []) ∧
      Function.argumentsOf g [] = [] := by
  refine ⟨⟨some "prop1"⟩, ⟨some "myFunc"⟩, ⟨some "myFunc"⟩, ?_, ?_, rfl, rfl,
      ?_, rfl⟩
  · simp [ValueReference.init, ValueReference.valueSet, hprop]
  · simp [Function.init, Function.nameSet, Function.argumentsInitial, hname]
  · simp [Function.init, Function.nameSet, Function.argumentsInitial, hname]

/-- C3 witness with validators accepting everything. -/
theorem function_init_filters_arguments_witness :
    ((fun _ => true) (some "myFunc") : Bool) = true ∧
    ((fun _ => true) (some "prop1") : Bool) = true ∧
    ∃ (vr : ValueReference) (f g : Function),
      ValueReference.init (fun _ => true) (some "prop1") = Except.ok vr ∧
      Function.init (fun _ => true) (some "myFunc")
          [PyObj.expr (Expression.valueReference vr),
            PyObj.expr (Expression.literal (Literal.init (PyVal.str "5") none))]
          Function.argumentsInitial =
        Except.ok (f,
          [Expression.valueReference vr,
            Expression.literal (Literal.init (PyVal.str "5") none)]) ∧
      Function.argumentsOf f
          [Expression.valueReference vr,
            Expression.literal (Literal.init (PyVal.str "5") none)] =
        [Expression.valueReference vr,
          Expression.literal (Literal.init (PyVal.str "5") none)] ∧
      (Function.argumentsOf f
          [Expression.valueReference vr,
            Expression.literal (Literal.init (PyVal.str "5") none)]).length = 2 ∧
      Function.init (fun _ => true) (some "myFunc")
          [PyObj.nonExpr "not-an-expression"] Function.argumentsInitial =
        Except.ok (g, []) ∧
      Function.argumentsOf g [] = [] :=
  ⟨rfl, rfl,
    function_init_filters_arguments (fun _ => true) (fun _ => true) rfl rfl⟩

/-- C4: the argument sequence is shared at the type level rather than per
instance: constructing a first Function `a` (appending one expression to
the pristine class-level list) and then a second Function `b` with no
arguments leaves `b` observing the element appended via `a` -- the second
instance does not start with an empty sequence of its own. -/
theorem function_arguments_shared_state (vName : Option String → Bool)
    (n1 n2 : Option String) (e : Expression)
    (h1 : vName n1 = true) (h2 : vName n2 = true) :
    ∃ (a b : Function) (σ1 σ2 : FunctionClassState),
      Function.init vName n1 [PyObj.expr e] Function.argumentsInitial =
        Except.ok (a, σ1) ∧
      Function.init vName n2 [] σ1 = Except.ok (b, σ2) ∧
      Function.argumentsOf b σ2 = [e] ∧
      Function.argumentsOf b σ2 ≠ [] := by
  refine ⟨⟨n1⟩, ⟨n2⟩, [e], [e], ?_, ?_, rfl, by simp [Function.argumentsOf]⟩
  · simp [Function.init, Function.nameSet, Function.argumentsInitial, h1]
  · simp [Function.init, Function.nameSet, h2]

/-- C4 witness at concrete names and a concrete literal expression. -/
theorem function_arguments_shared_state_witness :
    ((fun _ => true) (some "f1") : Bool) = true ∧
    ((fun _ => true) (some "f2") : Bool) = true ∧
    ∃ (a b : Function) (σ1 σ2 : FunctionClassState),
      Function.init (fun _ => true) (some "f1")
          [PyObj.expr (Expression.literal (Literal.init (PyVal.str "5") none))]
          Function.argumentsInitial =
        Except.ok (a, σ1) ∧
      Function.init (fun _ => true) (some "f2") [] σ1 = Except.ok (b, σ2) ∧
      Function.argumentsOf b σ2 =
        [Expression.literal (Literal.init (PyVal.str "5") none)] ∧
      Function.argumentsOf b σ2 ≠ [] :=
  ⟨rfl, rfl,
    function_arguments_shared_state (fun _ => true) (some "f1") (some "f2")
      (Expression.literal (Literal.init (PyVal.str "5") none)) rfl rfl⟩

/-- C5 counterexample: the claim says `Literal._serialize` always emits an
element whose text is the raw stored string, never the type-interpreted
value.  But the source assigns `element.text = self.value` -- the property
getter -- so for the Literal storing the raw string
`"2020-01-15T00:00:00"` with `type_ = "xs:date"` the getter delivers a
parsed datetime object to lxml and serialization raises TypeError instead
of building an element carrying the raw string. -/
theorem literal_serialize_raw_text_cex :
    (Literal.init (PyVal.str "2020-01-15T00:00:00") (some "xs:date"))._value =
      PyVal.str "2020-01-15T00:00:00" ∧
    Literal._serialize
        (Literal.init (PyVal.str "2020-01-15T00:00:00") (some "xs:date")) =
      Except.error PyError.typeError :=
  ⟨rfl, rfl⟩

/-- C5 amended: for every Literal whose stored value is a string and whose
`type_` is not `"xs:date"`, `_serialize` builds an element with local name
`Literal` in the fes namespace whose text is the raw stored string, with a
`type` attribute exactly when `type_` is present (and equal to it); when
`type_` is `"xs:date"` the serializer passes the type-interpreted getter
value instead and fails. -/
theorem literal_serialize_amended (l : Literal) (s : String)
    (ht : l.type_ ≠ some "xs:date") (hv : l._value = PyVal.str s) :
    ∃ node : XmlNode,
      Literal._serialize l = Except.ok node ∧
      node.ns = some fesNamespaceURI ∧
      node.localname = Literal.XML_ENTITY_NAME ∧
      node.text = some s ∧
      node.attrib.lookup "type" = l.type_ := by
  cases hty : l.type_ with
  | none =>
    refine ⟨XmlNode.mk (some fesNamespaceURI) Literal.XML_ENTITY_NAME (some s)
      [] [], ?_, rfl, rfl, rfl, rfl⟩
    simp [Literal._serialize, Literal.valueGet, hty, hv, lxmlTextAssign]
  | some t =>
    rw [hty] at ht
    refine ⟨XmlNode.mk (some fesNamespaceURI) Literal.XML_ENTITY_NAME (some s)
      [("type", t)] [], ?_, rfl, rfl, rfl, ?_⟩
    · simp [Literal._serialize, Literal.valueGet, hty, hv, lxmlTextAssign, ht]
    · simp [XmlNode.attrib, List.lookup]

/-- C5 amended witness at a Literal storing `"5"` with `type_ = "xs:int"`. -/
theorem literal_serialize_amended_witness :
    (Literal.init (PyVal.str "5") (some "xs:int")).type_ ≠ some "xs:date" ∧
    (Literal.init (PyVal.str "5") (some "xs:int"))._value = PyVal.str "5" ∧
    ∃ node : XmlNode,
      Literal._serialize (Literal.init (PyVal.str "5") (some "xs:int")) =
        Except.ok node ∧
      node.ns = some fesNamespaceURI ∧
      node.localname = Literal.XML_ENTITY_NAME ∧
      node.text = some "5" ∧
      node.attrib.lookup "type" =
        (Literal.init (PyVal.str "5") (some "xs:int")).type_ :=
  ⟨by decide, rfl,
    literal_serialize_amended (Literal.init (PyVal.str "5") (some "xs:int"))
      "5" (by decide) rfl⟩

/-- C8: dispatch is mutually exclusive by shape.  For a node in the fes
namespace: local name `Literal` never parses to a ValueReference or a
Function; local name `ValueReference` never parses to a Literal or a
Function; local name `Function` never parses to a ValueReference or a
Literal. -/
theorem parse_dispatch_exclusive (vProp vName : Option String → Bool)
    (node : XmlNode) (σ : FunctionClassState)
    (hns : node.ns = some fesNamespaceURI) :
    (node.localname = Literal.XML_ENTITY_NAME → ∀ v f σ1,
      ExpressionParser.parse vProp vName node σ ≠
        Except.ok (some (Expression.valueReference v), σ1) ∧
      ExpressionParser.parse vProp vName node σ ≠
        Except.ok (some (Expression.function f), σ1)) ∧
    (node.localname = ValueReference.XML_ENTITY_NAME → ∀ l f σ1,
      ExpressionParser.parse vProp vName node σ ≠
        Except.ok (some (Expression.literal l), σ1) ∧
      ExpressionParser.parse vProp vName node σ ≠
        Except.ok (some (Expression.function f), σ1)) ∧
    (node.localname = Function.XML_ENTITY_NAME → ∀ v l σ1,
      ExpressionParser.parse vProp vName node σ ≠
        Except.ok (some (Expression.valueReference v), σ1) ∧
      ExpressionParser.parse vProp vName node σ ≠
        Except.ok (some (Expression.literal l), σ1)) := by
  refine ⟨?_, ?_, ?_⟩
  · intro hln v f σ1
    have hp : ExpressionParser.parse vProp vName node σ =
        Except.ok (some (Expression.literal
          (Literal.init (pyValOfText node.text) (node.attrib.lookup "type"))),
          σ) := by
      have hvr : ValueReference.deserialize vProp node = Except.ok none := by
        simp [ValueReference.deserialize, hln, ValueReference.XML_ENTITY_NAME,
          Literal.XML_ENTITY_NAME]
      have hlit : Literal.deserialize node =
          some (Literal.init (pyValOfText node.text)
            (node.attrib.lookup "type")) := by
        simp [Literal.deserialize, hns, hln]
      simp [ExpressionParser.parse, hvr, hlit]
    simp [hp]
  · intro hln l f σ1
    rcases hx : ValueReference.deserialize vProp node with e | ov
    · exact ⟨by simp [ExpressionParser.parse, hx],
        by simp [ExpressionParser.parse, hx]⟩
    · cases ov with
      | none =>
        exfalso
        rw [ValueReference.deserialize, if_pos ⟨hns, hln⟩] at hx
        rcases hy : ValueReference.init vProp node.text with e | inst <;>
          rw [hy] at hx <;> simp at hx
      | some v =>
        exact ⟨by simp [ExpressionParser.parse, hx],
          by simp [ExpressionParser.parse, hx]⟩
  · intro hln v l σ1
    have hvr : ValueReference.deserialize vProp node = Except.ok none := by
      simp [ValueReference.deserialize, hln, ValueReference.XML_ENTITY_NAME,
        Function.XML_ENTITY_NAME]
    have hlit : Literal.deserialize node = none := by
      simp [Literal.deserialize, hln, Literal.XML_ENTITY_NAME,
        Function.XML_ENTITY_NAME]
    rcases hx : Function.deserialize vProp vName node σ with e | p
    · constructor <;> simp [ExpressionParser.parse, hvr, hlit, hx]
    · rcases p with ⟨of, σ2⟩
      cases of <;> constructor <;>
        simp [ExpressionParser.parse, hvr, hlit, hx]

/-- C8 witness at a well-formed `fes:Literal` node. -/
theorem parse_dispatch_exclusive_witness :
    sampleLiteralNode.ns = some fesNamespaceURI ∧
    ((sampleLiteralNode.localname = Literal.XML_ENTITY_NAME → ∀ v f σ1,
      ExpressionParser.parse (fun _ => true) (fun _ => true)
          sampleLiteralNode [] ≠
        Except.ok (some (Expression.valueReference v), σ1) ∧
      ExpressionParser.parse (fun _ => true) (fun _ => true)
          sampleLiteralNode [] ≠
        Except.ok (some (Expression.function f), σ1)) ∧
    (sampleLiteralNode.localname = ValueReference.XML_ENTITY_NAME → ∀ l f σ1,
      ExpressionParser.parse (fun _ => true) (fun _ => true)
          sampleLiteralNode [] ≠
        Except.ok (some (Expression.literal l), σ1) ∧
      ExpressionParser.parse (fun _ => true) (fun _ => true)
          sampleLiteralNode [] ≠
        Except.ok (some (Expression.function f), σ1)) ∧
    (sampleLiteralNode.localname = Function.XML_ENTITY_NAME → ∀ v l σ1,
      ExpressionParser.parse (fun _ => true) (fun _ => true)
          sampleLiteralNode [] ≠
        Except.ok (some (Expression.valueReference v), σ1) ∧
      ExpressionParser.parse (fun _ => true) (fun _ => true)
          sampleLiteralNode [] ≠
        Except.ok (some (Expression.literal l), σ1))) :=
  ⟨rfl, parse_dispatch_exclusive (fun _ => true) (fun _ => true)
    sampleLiteralNode [] rfl⟩

end Pyfes
